import Mathlib

/-!
Verification development for a single-file Streamlit chat application
(`capstone.py`).  The program is a thin conversational UI over a hosted
chat-completion endpoint with an attached retrieval (RAG) data source.

The shallow embedding below translates the program's pure content:
the process environment is a record of the seven named optional string
values; the outbound network call is a parameter
`remote : Request → Except String String` (normal reply or raised
exception message); Streamlit session state is the explicit
`SessionState` record; the reactive handlers become functions on it.
-/

/-- Roles of chat messages, as used in the source's message dicts. -/
inductive Role where
  | system
  | user
  | assistant
deriving DecidableEq, Repr

/-- A chat message `\x7brole, content\x7d` as built throughout `capstone.py`. -/
structure Message where
  role : Role
  content : String
deriving DecidableEq, Repr

/-- Shorthand for a user-role message, mirroring
`\x7b"role": "user", "content": prompt\x7d`. -/
def userMsg (content : String) : Message := ⟨Role.user, content⟩

/-- Shorthand for an assistant-role message, mirroring
`\x7b"role": "assistant", "content": response\x7d`. -/
def assistantMsg (content : String) : Message := ⟨Role.assistant, content⟩

/-- The process environment: the seven named values the program reads with
`os.getenv`.  `none` models an unset variable; `some ""` an empty one. -/
structure Env where
  OPEN_AI_ENDPOINT : Option String
  OPEN_AI_KEY : Option String
  CHAT_MODEL : Option String
  EMBEDDING_MODEL : Option String
  SEARCH_ENDPOINT : Option String
  SEARCH_KEY : Option String
  INDEX_NAME : Option String
deriving DecidableEq, Repr

/-- Python truthiness of an `os.getenv` result (`if not x` / `if value:`):
`None` and the empty string are falsy, any other string truthy. -/
def isSet : Option String → Bool
  | none => false
  | some s => !s.isEmpty

/-- The client handle constructed by `AzureOpenAI(...)` in
`initialize_azure_client` (capstone.py lines 27-31). -/
structure Client where
  api_version : String
  azure_endpoint : String
  api_key : String
deriving DecidableEq, Repr

/-- `initialize_azure_client` (capstone.py lines 16-35): reads the endpoint
and key from the environment; if either is falsy it emits the fixed
`st.error` text and returns `None`; otherwise it constructs the client.
The second component collects the error strings shown to the user. -/
def init_azure_client (env : Env) : Option Client × List String :=
  if isSet env.OPEN_AI_ENDPOINT && isSet env.OPEN_AI_KEY then
    (some ⟨"2024-12-01-preview", env.OPEN_AI_ENDPOINT.getD "", env.OPEN_AI_KEY.getD ""⟩, [])
  else
    (none, ["Missing Azure OpenAI configuration. Please check your .env file."])

/-- Outcome of the top-level client check (capstone.py lines 95-98):
`chat_client = initialize_azure_client()`; `if chat_client is None: st.stop()`.
`halted` carries the errors shown before the stop; nothing below the stop
(the whole conversation flow) runs in that case. -/
inductive AppStart where
  | halted (errors : List String)
  | ready (c : Client)
deriving DecidableEq, Repr

/-- The top-level flow up to the `st.stop()` guard. -/
def app_start (env : Env) : AppStart :=
  match init_azure_client env with
  | (some c, _) => AppStart.ready c
  | (none, errs) => AppStart.halted errs

/-- The `authentication` block of the Azure search data source. -/
structure SearchAuth where
  type : String
  key : Option String
deriving DecidableEq, Repr

/-- The `embedding_dependency` block of the Azure search data source. -/
structure EmbeddingDependency where
  type : String
  deployment_name : Option String
deriving DecidableEq, Repr

/-- The `parameters` block of the Azure search data source
(capstone.py lines 52-64). -/
structure AzureSearchParameters where
  endpoint : Option String
  index_name : Option String
  authentication : SearchAuth
  query_type : String
  embedding_dependency : EmbeddingDependency
deriving DecidableEq, Repr

/-- One entry of `data_sources` (capstone.py lines 50-65). -/
structure DataSource where
  type : String
  parameters : AzureSearchParameters
deriving DecidableEq, Repr

/-- The `rag_params` extra body (capstone.py lines 48-67). -/
structure RagParams where
  data_sources : List DataSource
deriving DecidableEq, Repr

/-- The outbound chat-completion request as assembled by
`chat_client.chat.completions.create(model=..., messages=..., extra_body=...)`
(capstone.py lines 70-74). -/
structure Request where
  model : Option String
  messages : List Message
  extra_body : RagParams
deriving DecidableEq, Repr

/-- Request construction inside `get_rag_response` (capstone.py lines 40-74):
the five configuration values are read from the environment at call time and
combined with the given message list into the request. -/
def build_request (env : Env) (messages : List Message) : Request :=
  { model := env.CHAT_MODEL
    messages := messages
    extra_body :=
      { data_sources :=
          [{ type := "azure_search"
             parameters :=
               { endpoint := env.SEARCH_ENDPOINT
                 index_name := env.INDEX_NAME
                 authentication := { type := "api_key", key := env.SEARCH_KEY }
                 query_type := "vector"
                 embedding_dependency :=
                   { type := "deployment_name", deployment_name := env.EMBEDDING_MODEL } } }] } }

/-- `get_rag_response` (capstone.py lines 37-79): issues the request and
returns the reply content; any exception `e` raised by the call is caught
and turned into the string `"Error: " ++ str(e)`. -/
def get_rag_response (env : Env) (remote : Request → Except String String)
    (messages : List Message) : String :=
  match remote (build_request env messages) with
  | Except.ok content => content
  | Except.error e => "Error: " ++ e

/-- The Streamlit session state: `st.session_state.messages` (the API
message sequence) and `st.session_state.chat_history` (the displayed
history). -/
structure SessionState where
  messages : List Message
  chat_history : List Message
deriving DecidableEq, Repr

/-- The system message the session is seeded with
(capstone.py lines 82-85). -/
def session_seed : Message :=
  ⟨Role.system, "you are an expert on my history and the projects i have worked on."⟩

/-- The system message the Clear Chat History button reseeds with
(capstone.py lines 106-108). -/
def clear_seed : Message :=
  ⟨Role.system, "You are a travel assistant that provides information on travel services available from Margie's Travel."⟩

/-- Session-state initialization (capstone.py lines 82-88). -/
def init_state : SessionState :=
  { messages := [session_seed], chat_history := [] }

/-- The Clear Chat History button handler (capstone.py lines 104-109):
empties the displayed history and replaces the message sequence with the
single `clear_seed` system message. -/
def clear (_st : SessionState) : SessionState :=
  { messages := [clear_seed], chat_history := [] }

/-- The request issued during a turn: `get_rag_response` is called with
`st.session_state.messages` after the user message was appended
(capstone.py lines 148 and 157). -/
def issued_request (env : Env) (st : SessionState) (prompt : String) : Request :=
  build_request env (st.messages ++ [userMsg prompt])

/-- The chat-input handler (capstone.py lines 143-163): append the user
message to both lists, call `get_rag_response` on the full message
sequence, then append the response to both lists as the assistant message.
Returns the new state and the displayed response. -/
def handle_turn (env : Env) (remote : Request → Except String String)
    (st : SessionState) (prompt : String) : SessionState × String :=
  let ch1 := st.chat_history ++ [userMsg prompt]
  let m1 := st.messages ++ [userMsg prompt]
  let response := get_rag_response env remote m1
  ({ messages := m1 ++ [assistantMsg response],
     chat_history := ch1 ++ [assistantMsg response] }, response)

/-- One status line of the Configuration Status panel
(capstone.py lines 126-130). -/
def status_line (item : String) (value : Option String) : String :=
  if isSet value then "✅ " ++ item else "❌ " ++ item

/-- The `config_items` list of the sidebar status panel
(capstone.py lines 118-124). -/
def config_items (env : Env) : List (String × Option String) :=
  [("Azure OpenAI Endpoint", env.OPEN_AI_ENDPOINT),
   ("Chat Model", env.CHAT_MODEL),
   ("Embedding Model", env.EMBEDDING_MODEL),
   ("Search Endpoint", env.SEARCH_ENDPOINT),
   ("Index Name", env.INDEX_NAME)]

/-- The rendered status lines of the Configuration Status panel
(capstone.py lines 126-130). -/
def status_panel (env : Env) : List String :=
  (config_items env).map (fun iv => status_line iv.1 iv.2)

/-- A concrete environment with all seven values present. -/
def env_all : Env :=
  ⟨some "https://oai.example.net", some "oai-key", some "gpt-4",
   some "text-embedding-ada-002", some "https://search.example.net",
   some "search-key", some "project-index"⟩

/-- `env_all` with the endpoint unset. -/
def env_no_endpoint : Env := { env_all with OPEN_AI_ENDPOINT := none }

/-- `env_all` with the API key unset. -/
def env_no_key : Env := { env_all with OPEN_AI_KEY := none }

/-- `env_all` with a different chat model. -/
def env_alt_model : Env := { env_all with CHAT_MODEL := some "gpt-35-turbo" }

/-- C1 fails as stated: after the clear action the message sequence does have
exactly one entry and the displayed history is empty, but that entry is NOT
the seed system message the session starts with — `clear` reseeds with the
Margie's Travel system message, whose content differs from the session seed. -/
theorem c1_clear_seed_differs :
    (clear init_state).messages.length = 1 ∧
    (clear init_state).chat_history = [] ∧
    (clear init_state).messages ≠ [session_seed] ∧
    clear_seed ≠ session_seed := by
  refine ⟨rfl, rfl, ?_, ?_⟩ <;> decide

/-- C1 amended: for every conversation state, the clear action resets the
message sequence to exactly one entry — a fixed system-role message (the
travel-assistant reseed, not the session's initial seed) — and empties the
displayed history, regardless of how many messages had accumulated. -/
theorem c1_clear_resets (st : SessionState) :
    (clear st).messages = [clear_seed] ∧
    clear_seed.role = Role.system ∧
    (clear st).chat_history = [] :=
  ⟨rfl, rfl, rfl⟩

/-- C2: when the outbound completion call raises an exception with message
`m`, the turn returns exactly `"Error: " ++ m`, appends that exact string to
both the message sequence and the displayed history as the assistant
message, and completes normally (the handler is total — the new state is
fully formed and usable for further turns). -/
theorem c2_error_turn (env : Env) (remote : Request → Except String String)
    (st : SessionState) (prompt m : String)
    (h : remote (issued_request env st prompt) = Except.error m) :
    (handle_turn env remote st prompt).2 = "Error: " ++ m ∧
    (handle_turn env remote st prompt).1.messages =
      st.messages ++ [userMsg prompt, assistantMsg ("Error: " ++ m)] ∧
    (handle_turn env remote st prompt).1.chat_history =
      st.chat_history ++ [userMsg prompt, assistantMsg ("Error: " ++ m)] := by
  simp only [handle_turn, get_rag_response, issued_request] at *
  rw [h]
  simp

/-- Witness for `c2_error_turn` at a concrete failing remote call with
message `"timeout"`. -/
theorem c2_error_turn_witness :
    (handle_turn env_all (fun _ => Except.error "timeout") init_state "hi").2
      = "Error: " ++ "timeout" ∧
    (handle_turn env_all (fun _ => Except.error "timeout") init_state "hi").1.messages =
      init_state.messages ++ [userMsg "hi", assistantMsg ("Error: " ++ "timeout")] ∧
    (handle_turn env_all (fun _ => Except.error "timeout") init_state "hi").1.chat_history =
      init_state.chat_history ++ [userMsg "hi", assistantMsg ("Error: " ++ "timeout")] :=
  c2_error_turn env_all (fun _ => Except.error "timeout") init_state "hi" "timeout" rfl

/-- C3: on every turn with non-empty user text the message sequence grows by
exactly one (the user message) before the request is issued — the issued
request carries `st.messages ++ [user]` — and by exactly one more (the
assistant message) after the response, for a total of two, whatever the
remote call returns (success or failure). -/
theorem c3_growth (env : Env) (remote : Request → Except String String)
    (st : SessionState) (prompt : String) (hp : prompt ≠ "") :
    (issued_request env st prompt).messages.length = st.messages.length + 1 ∧
    (handle_turn env remote st prompt).1.messages.length = st.messages.length + 2 ∧
    (handle_turn env remote st prompt).1.chat_history.length =
      st.chat_history.length + 2 := by
  refine ⟨?_, ?_, ?_⟩ <;> simp [issued_request, build_request, handle_turn]

/-- Witness for `c3_growth` on the concrete prompt from the spec, with a
successful remote call. -/
theorem c3_growth_witness :
    (issued_request env_all init_state "What projects have you worked on?").messages.length
      = init_state.messages.length + 1 ∧
    (handle_turn env_all (fun _ => Except.ok "Several.") init_state
      "What projects have you worked on?").1.messages.length
      = init_state.messages.length + 2 ∧
    (handle_turn env_all (fun _ => Except.ok "Several.") init_state
      "What projects have you worked on?").1.chat_history.length
      = init_state.chat_history.length + 2 :=
  c3_growth env_all (fun _ => Except.ok "Several.") init_state
    "What projects have you worked on?" (by decide)

/-- C5 fails as stated: the user-visible error does not describe which value
is missing.  With only the endpoint missing and with only the key missing,
`initialize_azure_client` emits the very same fixed error text, so the
message cannot identify the missing value. -/
theorem c5_generic_error :
    env_no_endpoint.OPEN_AI_ENDPOINT = none ∧
    isSet env_no_endpoint.OPEN_AI_KEY = true ∧
    env_no_key.OPEN_AI_KEY = none ∧
    isSet env_no_key.OPEN_AI_ENDPOINT = true ∧
    (init_azure_client env_no_endpoint).2 = (init_azure_client env_no_key).2 := by
  refine ⟨rfl, ?_, rfl, ?_, rfl⟩ <;> decide

/-- C5 amended: if the endpoint URL or the API key is absent (or empty),
`initialize_azure_client` returns no usable handle (a normal `None` return,
not a crash), surfaces the fixed user-visible error text stating that the
Azure OpenAI configuration is missing (without naming which value), and the
calling flow halts before any of the conversation flow executes. -/
theorem c5_halt (env : Env)
    (h : isSet env.OPEN_AI_ENDPOINT = false ∨ isSet env.OPEN_AI_KEY = false) :
    (init_azure_client env).1 = none ∧
    (init_azure_client env).2 =
      ["Missing Azure OpenAI configuration. Please check your .env file."] ∧
    app_start env =
      AppStart.halted
        ["Missing Azure OpenAI configuration. Please check your .env file."] := by
  have hc : (isSet env.OPEN_AI_ENDPOINT && isSet env.OPEN_AI_KEY) = false := by
    rcases h with h | h <;> simp [h]
  refine ⟨?_, ?_, ?_⟩ <;> simp [init_azure_client, app_start, hc]

/-- Witness for `c5_halt` at the concrete environment missing only the
endpoint. -/
theorem c5_halt_witness :
    (init_azure_client env_no_endpoint).1 = none ∧
    (init_azure_client env_no_endpoint).2 =
      ["Missing Azure OpenAI configuration. Please check your .env file."] ∧
    app_start env_no_endpoint =
      AppStart.halted
        ["Missing Azure OpenAI configuration. Please check your .env file."] :=
  c5_halt env_no_endpoint (Or.inl (by decide))

/-- C6 fails as stated: the Configuration Status panel renders five lines,
not seven — the API key and the search API key are absent from
`config_items`, so they are never reported. -/
theorem c6_five_lines :
    status_panel env_all =
      ["✅ Azure OpenAI Endpoint", "✅ Chat Model", "✅ Embedding Model",
       "✅ Search Endpoint", "✅ Index Name"] ∧
    (status_panel env_all).length = 5 ∧
    (status_panel env_all).length ≠ 7 := by
  refine ⟨?_, rfl, by decide⟩
  decide

/-- C6 amended: the panel reports exactly one status line per configured
item for five values — endpoint URL, chat model name, embedding model name,
search endpoint URL, index name (the API key and search API key are not
reported) — and each line depends only on its own item's presence, so no
item affects another. -/
theorem c6_independent_lines (env : Env) :
    status_panel env =
      [status_line "Azure OpenAI Endpoint" env.OPEN_AI_ENDPOINT,
       status_line "Chat Model" env.CHAT_MODEL,
       status_line "Embedding Model" env.EMBEDDING_MODEL,
       status_line "Search Endpoint" env.SEARCH_ENDPOINT,
       status_line "Index Name" env.INDEX_NAME] ∧
    (status_panel env).length = 5 :=
  ⟨rfl, rfl⟩

/-- The displayed/returned reply for a remote outcome: the content on
success, `"Error: " ++ e` on an exception. -/
def respString : Except String String → String
  | Except.ok content => content
  | Except.error e => "Error: " ++ e

/-- The two messages a single turn adds to the sequence: the user prompt and
the assistant-role reply (which is the error string when the call failed). -/
def turn_messages (o : String × Except String String) : List Message :=
  [userMsg o.1, assistantMsg (respString o.2)]

/-- A session run: starting from the fresh session state, perform one turn
per entry of `outcomes`, where each entry is the user prompt paired with the
remote call's outcome for that turn. -/
def run_turns (env : Env) (outcomes : List (String × Except String String)) :
    SessionState :=
  outcomes.foldl (fun st o => (handle_turn env (fun _ => o.2) st o.1).1) init_state

/-- A turn appends exactly the user prompt and the assistant reply to the
message sequence. -/
theorem handle_turn_messages (env : Env) (remote : Request → Except String String)
    (st : SessionState) (prompt : String) :
    (handle_turn env remote st prompt).1.messages =
      st.messages ++ turn_messages (prompt, remote (issued_request env st prompt)) := by
  simp only [handle_turn, get_rag_response, issued_request, turn_messages, respString]
  cases remote (build_request env (st.messages ++ [userMsg prompt])) <;> simp

/-- The message sequence after a run is the starting sequence followed by the
two messages of each turn, in order. -/
theorem run_turns_messages_aux (env : Env) :
    ∀ (os : List (String × Except String String)) (st : SessionState),
      (os.foldl (fun s o => (handle_turn env (fun _ => o.2) s o.1).1) st).messages =
        st.messages ++ os.flatMap turn_messages := by
  intro os
  induction os with
  | nil => intro st; simp
  | cons o os ih =>
    intro st
    rw [List.foldl_cons, ih, handle_turn_messages]
    simp

/-- C4: on every turn N the request handed to the external completion
service carries exactly the full accumulated history — the seed system
message, then, for each of the N-1 previous turns, its user message and its
assistant reply (error strings included), then the new user message — with
no windowing, truncation or summarization. -/
theorem c4_full_history (env : Env)
    (outcomes : List (String × Except String String)) (p : String) :
    (issued_request env (run_turns env outcomes) p).messages =
      session_seed :: (outcomes.flatMap turn_messages ++ [userMsg p]) := by
  simp only [issued_request, build_request, run_turns]
  rw [run_turns_messages_aux]
  simp [init_state]

/-- C7 fails as stated: configuration is not read once at process start.
`get_rag_response` calls `os.getenv` inside the turn, so two turns from the
same state and prompt under environments that differ only in `CHAT_MODEL`
issue different requests — the request tracks the environment at turn time. -/
theorem c7_env_reread :
    env_all.CHAT_MODEL ≠ env_alt_model.CHAT_MODEL ∧
    issued_request env_all init_state "hi" ≠
      issued_request env_alt_model init_state "hi" ∧
    (issued_request env_alt_model init_state "hi").model = env_alt_model.CHAT_MODEL := by
  refine ⟨by decide, by decide, rfl⟩

/-- C7 amended: only the endpoint URL and API key are captured at client
initialization; the chat model, embedding model, search endpoint, search API
key and index name are re-read from the environment on every turn inside
`get_rag_response`.  Formally: the issued request is independent of the two
initialization-time values and is built from the turn-time environment,
while the client handle is independent of the five turn-time values. -/
theorem c7_read_split (envI envT : Env) (st : SessionState) (p : String) :
    issued_request envT st p =
      issued_request
        { envT with OPEN_AI_ENDPOINT := envI.OPEN_AI_ENDPOINT,
                    OPEN_AI_KEY := envI.OPEN_AI_KEY } st p ∧
    (issued_request envT st p).model = envT.CHAT_MODEL ∧
    (init_azure_client envT).1 =
      (init_azure_client
        { envT with CHAT_MODEL := envI.CHAT_MODEL,
                    EMBEDDING_MODEL := envI.EMBEDDING_MODEL,
                    SEARCH_ENDPOINT := envI.SEARCH_ENDPOINT,
                    SEARCH_KEY := envI.SEARCH_KEY,
                    INDEX_NAME := envI.INDEX_NAME }).1 :=
  ⟨rfl, rfl, rfl⟩

/-- The memoized factory call, modelled from the documented semantics of the
`@st.cache_resource` decorator on `initialize_azure_client`: the first call
computes the value and stores it; every later call in the same process
returns the stored value without running the function (so without re-reading
configuration or reconstructing the client).  Takes and returns the cache
cell. -/
def cache_resource_call (env : Env) (cache : Option (Option Client)) :
    Option Client × Option (Option Client) :=
  match cache with
  | some v => (v, some v)
  | none => ((init_azure_client env).1, some (init_azure_client env).1)

/-- C8: after a first successful call, every subsequent call of the memoized
factory returns the same client handle, even when the process environment
has changed in the meantime — configuration is not re-read and the client is
not reconstructed on repeated re-renders. -/
theorem c8_memoized (env env' : Env) (c : Client)
    (h : (cache_resource_call env none).1 = some c) :
    (cache_resource_call env' (cache_resource_call env none).2).1 = some c ∧
    (cache_resource_call env' (cache_resource_call env none).2).2 =
      (cache_resource_call env none).2 := by
  simp only [cache_resource_call] at h ⊢
  simp [h]

/-- Witness for `c8_memoized`: first call under the full environment, second
call under a changed environment (key removed) still returns the original
handle. -/
theorem c8_memoized_witness :
    (cache_resource_call env_no_key (cache_resource_call env_all none).2).1 =
      some ⟨"2024-12-01-preview", "https://oai.example.net", "oai-key"⟩ ∧
    (cache_resource_call env_no_key (cache_resource_call env_all none).2).2 =
      (cache_resource_call env_all none).2 :=
  c8_memoized env_all env_no_key
    ⟨"2024-12-01-preview", "https://oai.example.net", "oai-key"⟩ (by decide)

/-- C9: on every turn the outbound request is the full message sequence (the
accumulated messages plus the new user message) together with the fixed
retrieval block: search endpoint, index name, key-based authentication with
the search API key, vector query mode, and the embedding-model deployment
reference for query vectorization. -/
theorem c9_request_shape (env : Env) (st : SessionState) (p : String) :
    (issued_request env st p).messages = st.messages ++ [userMsg p] ∧
    (issued_request env st p).model = env.CHAT_MODEL ∧
    (issued_request env st p).extra_body =
      { data_sources :=
          [{ type := "azure_search"
             parameters :=
               { endpoint := env.SEARCH_ENDPOINT
                 index_name := env.INDEX_NAME
                 authentication := { type := "api_key", key := env.SEARCH_KEY }
                 query_type := "vector"
                 embedding_dependency :=
                   { type := "deployment_name",
                     deployment_name := env.EMBEDDING_MODEL } } }] } :=
  ⟨rfl, rfl, rfl⟩

/-- The lockstep invariant between the API message sequence and the
displayed history: the sequence is always exactly one longer (the system
seed), and no system-role message ever appears in the displayed history. -/
def lockstep (st : SessionState) : Prop :=
  st.messages.length = st.chat_history.length + 1 ∧
  ∀ m ∈ st.chat_history, m.role ≠ Role.system

/-- C10: the lockstep invariant holds at session start, is preserved by
every turn (whatever the remote call returns), and is restored by the clear
action. -/
theorem c10_lockstep :
    lockstep init_state ∧
    (∀ (env : Env) (remote : Request → Except String String)
       (st : SessionState) (p : String),
       lockstep st → lockstep (handle_turn env remote st p).1) ∧
    (∀ st : SessionState, lockstep (clear st)) := by
  refine ⟨⟨rfl, by simp [init_state]⟩, ?_, ?_⟩
  · rintro env remote st p ⟨hlen, hsys⟩
    constructor
    · simp [handle_turn, hlen]
    · intro m hm
      simp only [handle_turn] at hm
      simp only [List.append_assoc, List.mem_append, List.mem_cons,
        List.mem_singleton, List.not_mem_nil, or_false] at hm
      rcases hm with hm | hm | hm
      · exact hsys m hm
      · subst hm; simp [userMsg]
      · subst hm; simp [assistantMsg]
  · intro st
    exact ⟨rfl, by simp [clear]⟩

/-- Witness for `c10_lockstep`: the turn-preservation part applied at the
fresh session state with a concrete failing remote call. -/
theorem c10_lockstep_witness :
    lockstep (handle_turn env_all (fun _ => Except.error "timeout")
      init_state "hello").1 :=
  c10_lockstep.2.1 env_all (fun _ => Except.error "timeout") init_state "hello"
    ⟨rfl, by simp [init_state]⟩
